import Mathlib

/-!
Shallow embedding of the GuyPS offline-map application (src/main.py) and
verification of its specification claims.

Conventions of the embedding:
- Python floats are modelled as rationals (`Rat`).
- The file system is an explicit value: a list of existing paths plus a flag
  saying whether `os.makedirs` would succeed for the package directory.
- Python exceptions are modelled by returning the state reached so far
  together with `some e : Option PyErr` (side effects performed before the
  exception persist, as in Python).
- UI side effects (popups, confirm dialogs, status-bar messages), started
  download threads and scheduled clock probes are accumulated in event logs
  inside the application state.
- The external geocoding backend response is passed in as a `GeoResult`
  argument; MBTiles metadata is supplied by the environment as already
  parsed key/value data (`center` as the lon,lat,zoom triple of the raw
  comma-separated string, `minzoom` as the integer value of the raw string).
-/

namespace GuyPS

/-- Global constant OFFLINE_MIN_ZOOM = 12 from main.py line 27. -/
def OFFLINE_MIN_ZOOM : Int := 12

/-- Global constant OFFLINE_MAX_ZOOM = 15 from main.py line 28. -/
def OFFLINE_MAX_ZOOM : Int := 15

/-- Python range(a, b) over integers: a, a+1, ..., b-1. -/
def pyRange (a b : Int) : List Int :=
  (List.range (b - a).toNat).map (fun i => a + i)

/-- Numeric value of a list of decimal digit characters. -/
def digitsVal (cs : List Char) : Nat :=
  List.foldl (fun acc c => acc * 10 + (c.toNat - 48)) 0 cs

/-- Embedding of Python float(str) on plain decimal literals: an optional
leading minus sign, a nonempty integer part, and an optional fractional part
after a dot. Returns none when the string is not of this form (Python raises
ValueError there). Exotic float syntax (exponents, inf, nan) is not used by
the program and is not modelled. -/
def pyFloat (s : String) : Option Rat :=
  let cs := s.data
  let neg : Bool := match cs with
    | c :: _ => c = Char.ofNat 45
    | [] => false
  let cs1 := if neg then cs.drop 1 else cs
  let ip := cs1.takeWhile Char.isDigit
  let rest := cs1.dropWhile Char.isDigit
  if ip.isEmpty then none
  else
    let base : Rat := (digitsVal ip : Rat)
    let val : Option Rat :=
      match rest with
      | [] => some base
      | c :: frac =>
        if c = Char.ofNat 46 ∧ ¬ frac.isEmpty ∧ frac.all Char.isDigit then
          some (base + (digitsVal frac : Rat) / ((10 : Rat) ^ frac.length))
        else none
    val.map (fun v => if neg then -v else v)

/-- A geocoded place as consumed by main.py: latitude, longitude, display
address, the raw classification tag (location.raw of the source, key type),
and the raw bounding box as four strings (location.raw, key boundingbox). -/
structure Place where
  latitude : Rat
  longitude : Rat
  address : String
  rawType : String
  boundingbox : List String
deriving DecidableEq

/-- Outcome of one call to the external geocoding backend
(geopy Nominatim.geocode): a place, no result, or GeocoderServiceError. -/
inductive GeoResult where
  | found (location : Place)
  | notFound
  | serviceError (msg : String)
deriving DecidableEq

/-- Parsed MBTiles metadata as read by MBTilesReader.metadata(): the optional
center key (raw string "lon,lat,zoom", held here as the parsed triple in that
order) and the optional minzoom key (held as its integer value). -/
structure Metadata where
  center : Option (Rat × Rat × Rat)
  minzoom : Option Int
deriving DecidableEq

/-- File-system state: the set of existing paths, as a list. -/
structure FS where
  paths : List String
deriving DecidableEq

/-- Embedding of os.path.exists. -/
def FS.pathExists (fs : FS) (p : String) : Bool :=
  fs.paths.contains p

/-- Effect of a successful os.makedirs(p). -/
def FS.addPath (fs : FS) (p : String) : FS :=
  { paths := fs.paths ++ [p] }

/-- Effect of os.remove(p). -/
def FS.removePath (fs : FS) (p : String) : FS :=
  { paths := fs.paths.filter (fun q => q ≠ p) }

/-- Python exceptions that the embedded code can raise. -/
inductive PyErr where
  | nameError (name : String)
  | osError
  | geocoderServiceError (msg : String)
deriving DecidableEq

/-- Bounding box in the landez/mbtiles convention used by the core:
(min_lon, min_lat, max_lon, max_lat). -/
abbrev BBox := Rat × Rat × Rat × Rat

/-- The download call a ConfirmPopup on_yes handler is bound to:
download_for_offline(filepath, bbox, zoomlevels, delete). -/
structure PendingDownload where
  filepath : String
  bbox : BBox
  zoomlevels : List Int
  delete : Bool
deriving DecidableEq

/-- UI side effects performed by the embedded code, in order. -/
inductive UIEvent where
  | popupMessage (title body : String)
  | confirmPopup (title text : String) (onYes : PendingDownload)
  | statusMessage (text : String) (lifetime : Rat)
deriving DecidableEq

/-- A background download started by download_for_offline: the
MBTilesBuilder coverage plus the started builder thread. -/
structure DownloadJob where
  filepath : String
  bbox : BBox
  zoomlevels : List Int
deriving DecidableEq

/-- A Clock.schedule_interval registration for the progress probe. -/
structure ScheduledProbe where
  interval : Rat
deriving DecidableEq

/-- The map source held by the map view: the default online source or an
MBTilesCompositeMapSource over the given package paths, in order. -/
inductive MapSrc where
  | defaultSource
  | composite (paths : List String)
deriving DecidableEq

/-- Viewport coordinates of the map view (lat, lon, zoom). -/
structure Viewport where
  lat : Rat
  lon : Rat
  zoom : Rat
deriving DecidableEq

/-- Kivy Animation values built by the code: target a zoom, target a
coordinate, run two animations in parallel (the Python & operator), or in
sequence (the Python + operator). -/
inductive Anim where
  | zoomTo (target : Rat) (duration : Rat)
  | panTo (lat lon : Rat) (duration : Rat)
  | par (a b : Anim)
  | seq (a b : Anim)
deriving DecidableEq

/-- Total running time of an animation: parallel takes the max, sequence
the sum, matching Kivy Parallel/Sequence semantics. -/
def Anim.duration : Anim → Rat
  | .zoomTo _ d => d
  | .panTo _ _ d => d
  | .par a b => max a.duration b.duration
  | .seq a b => a.duration + b.duration

/-- Linear interpolation from a to b after time t out of duration d,
matching the default Kivy animation transition. -/
def lerp (a b t d : Rat) : Rat :=
  a + (b - a) * t / d

/-- Viewport published by a running animation at time t from start
viewport v. A primitive animation linearly interpolates its own property
and leaves the others; parallel applies both branches (they animate
disjoint properties in this program); sequence runs the second stage from
the final state of the first. -/
def Anim.eval : Anim → Viewport → Rat → Viewport
  | .zoomTo z d, v, t =>
    if d ≤ t then { v with zoom := z } else { v with zoom := lerp v.zoom z t d }
  | .panTo la lo d, v, t =>
    if d ≤ t then { v with lat := la, lon := lo }
    else { v with lat := lerp v.lat la t d, lon := lerp v.lon lo t d }
  | .par a b, v, t => b.eval (a.eval v t) t
  | .seq a b, v, t =>
    if t ≤ a.duration then a.eval v t
    else b.eval (a.eval v a.duration) (t - a.duration)

/-- Application state threaded through the embedded methods. -/
structure AppState where
  fs : FS
  events : List UIEvent
  jobs : List DownloadJob
  probes : List ScheduledProbe
  viewport : Viewport
  anims : List Anim
  map_source : MapSrc
deriving DecidableEq

/-- Static environment reached through the App singleton: the per-user
mbtiles directory, the glob result over star.mbtiles in that directory in
file-system enumeration order, the parsed metadata of each package file,
and whether os.makedirs of the mbtiles directory would succeed. -/
structure Env where
  mbtiles_directory : String
  mbtiles_paths : List String
  metadataOf : String → Metadata
  makedirsOK : Bool

/-- Embedding of os.path.join for the two-argument uses in main.py. -/
def pathJoin (a b : String) : String :=
  a ++ "/" ++ b

namespace CustomMapView

/-- The Animation value built by CustomMapView.animated_center_on
(main.py lines 85-96): zoom out to 5 (duration 1) in parallel with the pan
to the new coordinate (duration 1), then in sequence zoom back to the zoom
captured before the transition began (duration 1). -/
def center_anim (initial_zoom latitude longitude : Rat) : Anim :=
  Anim.seq
    (Anim.par (Anim.zoomTo 5 1) (Anim.panTo latitude longitude 1))
    (Anim.zoomTo initial_zoom 1)

/-- State effect of CustomMapView.animated_center_on: captures the current
zoom and starts the composed animation (anim.start(widget)). -/
def animated_center_on (s : AppState) (latitude longitude : Rat) : AppState :=
  { s with anims := s.anims ++ [center_anim s.viewport.zoom latitude longitude] }

/-- Embedding of CustomMapView.search (main.py lines 113-132). The outcome
of the geolocator.geocode call is the geo argument; GeocoderServiceError is
caught and shown in a PopupMessage, a missing location is shown in a
PopupMessage, otherwise the view animates to the found location. -/
def search (s : AppState) (geo : GeoResult) : AppState × Option PyErr :=
  match geo with
  | .serviceError msg =>
    ({ s with events := s.events ++ [UIEvent.popupMessage "Error" msg] }, none)
  | .notFound =>
    ({ s with events :=
        s.events ++ [UIEvent.popupMessage "Error" "Can't find location."] },
     none)
  | .found location =>
    (animated_center_on s location.latitude location.longitude, none)

/-- Embedding of CustomMapView.load_mbtiles (main.py lines 134-153). The
map source is replaced by an MBTilesCompositeMapSource over every glob
result; then the requested package metadata is read; when a center key is
present the local variables longitude, latitude are bound from it and the
view animates there, after which zoom is set to the minzoom key (default
OFFLINE_MIN_ZOOM). When no center key is present the call
self.animated_center_on(latitude, longitude) reads the never-assigned
locals and Python raises NameError before the zoom assignment is reached. -/
def load_mbtiles (env : Env) (s : AppState) (mbtiles : String) :
    AppState × Option PyErr :=
  let mbtiles_path := pathJoin env.mbtiles_directory mbtiles
  let s := { s with map_source := MapSrc.composite env.mbtiles_paths }
  let metadata := env.metadataOf mbtiles_path
  match metadata.center with
  | some (longitude, latitude, _zoom) =>
    let s := animated_center_on s latitude longitude
    let min_zoom : Int := metadata.minzoom.getD OFFLINE_MIN_ZOOM
    ({ s with viewport := { s.viewport with zoom := (min_zoom : Rat) } }, none)
  | none =>
    (s, some (PyErr.nameError "latitude"))

end CustomMapView

namespace Controller

/-- Embedding of the list comprehension [float(x) for x in geopy_bbox]:
elementwise float conversion that raises (none) on the first bad element. -/
def pyFloatList : List String → Option (List Rat)
  | [] => some []
  | x :: xs =>
    match pyFloat x, pyFloatList xs with
    | some v, some vs => some (v :: vs)
    | _, _ => none

/-- Embedding of Controller.geopy_bbox_to_bbox (main.py lines 299-306):
float() is applied to each element, then the four values are unpacked as
(min_lat, max_lat, min_lon, max_lon) and returned reordered as
(min_lon, min_lat, max_lon, max_lat). A non-numeric element or a length
other than four raises in Python, modelled as none. -/
def geopy_bbox_to_bbox (geopy_bbox : List String) : Option BBox :=
  match pyFloatList geopy_bbox with
  | some [min_lat, max_lat, min_lon, max_lon] =>
    some (min_lon, min_lat, max_lon, max_lat)
  | _ => none

/-- Embedding of Controller.download_for_offline (main.py lines 361-374):
with delete=True the existing file is removed first (os.remove raises when
the path is missing), then the MBTilesBuilder coverage is configured, its
run is started on a background thread, and the progress probe is scheduled
with Clock.schedule_interval at a 0.5 cadence. -/
def download_for_offline (s : AppState) (filepath : String) (bbox : BBox)
    (zoomlevels : List Int) (delete : Bool) : AppState × Option PyErr :=
  let removed : AppState × Option PyErr :=
    if delete then
      if s.fs.pathExists filepath then
        ({ s with fs := s.fs.removePath filepath }, none)
      else (s, some PyErr.osError)
    else (s, none)
  match removed with
  | (s1, some e) => (s1, some e)
  | (s1, none) =>
    ({ s1 with
        jobs := s1.jobs ++ [{ filepath := filepath, bbox := bbox,
                              zoomlevels := zoomlevels }],
        probes := s1.probes ++ [{ interval := (1 : Rat) / 2 }] },
     none)

/-- Embedding of Controller.prepare_download_for_offline2 (main.py lines
339-359): the mbtiles directory is created when missing (an os.makedirs
failure raises OSError, uncaught); when the destination file already exists
a ConfirmPopup bound to download_for_offline(..., delete=True) is opened
and a status message shown, and nothing is started; otherwise
download_for_offline is called directly. -/
def prepare_download_for_offline2 (env : Env) (s : AppState)
    (filename : String) (bbox : BBox) (zoomlevels : List Int) :
    AppState × Option PyErr :=
  let dirStep : AppState × Option PyErr :=
    if ¬ s.fs.pathExists env.mbtiles_directory then
      if env.makedirsOK then
        ({ s with fs := s.fs.addPath env.mbtiles_directory }, none)
      else (s, some PyErr.osError)
    else (s, none)
  match dirStep with
  | (s1, some e) => (s1, some e)
  | (s1, none) =>
    let filepath := pathJoin env.mbtiles_directory filename
    if s1.fs.pathExists filepath then
      ({ s1 with events := s1.events ++
          [UIEvent.confirmPopup "File already exists"
            "File already exists.\nDo you want to override?"
            { filepath := filepath, bbox := bbox,
              zoomlevels := zoomlevels, delete := true },
           UIEvent.statusMessage ("File already exists: " ++ filename) 10] },
       none)
    else
      download_for_offline s1 filepath bbox zoomlevels false

/-- Embedding of Controller.prepare_download_for_offline1 (main.py lines
308-337). The geolocator.geocode outcome is the geo argument; note the
source wraps this call in no try/except, so a GeocoderServiceError
propagates uncaught. A missing location or a raw type other than city
shows a PopupMessage and stops; otherwise the view animates to the
location, the city name is the address up to the first comma, the geopy
bounding box is converted, and prepare_download_for_offline2 runs with
zoom levels range(OFFLINE_MIN_ZOOM, OFFLINE_MAX_ZOOM + 1). -/
def prepare_download_for_offline1 (env : Env) (s : AppState)
    (geo : GeoResult) : AppState × Option PyErr :=
  match geo with
  | .serviceError msg => (s, some (PyErr.geocoderServiceError msg))
  | .notFound =>
    ({ s with events :=
        s.events ++ [UIEvent.popupMessage "Error" "Can't find location."] },
     none)
  | .found location =>
    if location.rawType ≠ "city" then
      ({ s with events :=
          s.events ++ [UIEvent.popupMessage "Error" "Only cities are allowed."] },
       none)
    else
      let s1 := CustomMapView.animated_center_on s
        location.latitude location.longitude
      let city := (location.address.splitOn ",").headD ""
      let filename := city ++ ".mbtiles"
      match geopy_bbox_to_bbox location.boundingbox with
      | none => (s1, some PyErr.osError)
      | some bbox =>
        let zoomlevels := pyRange OFFLINE_MIN_ZOOM (OFFLINE_MAX_ZOOM + 1)
        prepare_download_for_offline2 env s1 filename bbox zoomlevels

/-- Embedding of Controller.probe_mb_tiles_builder_thread (main.py lines
385-392): publishes rendered/nbtiles as a status message, and when the
builder thread is no longer alive publishes nbtiles/nbtiles and returns
False (some false). Otherwise the Python function falls through and
returns None (none). -/
def probe_mb_tiles_builder_thread (s : AppState) (rendered nbtiles : Nat)
    (alive : Bool) : AppState × Option Bool :=
  let s := { s with events := s.events ++
      [UIEvent.statusMessage
        ("Downloading tiles " ++ toString rendered ++ "/" ++ toString nbtiles)
        10] }
  if ¬ alive then
    ({ s with events := s.events ++
        [UIEvent.statusMessage
          ("Downloading tiles " ++ toString nbtiles ++ "/" ++ toString nbtiles)
          10] },
     some false)
  else (s, none)

end Controller

/-- One observation of the builder thread made by a scheduled probe tick:
the rendered and nbtiles counters and whether the thread is alive. -/
structure Observation where
  rendered : Nat
  nbtiles : Nat
  alive : Bool
deriving DecidableEq

/-- Kivy Clock.schedule_interval semantics for the probe callback: it is
invoked on each tick of the observation trace and is unscheduled exactly
when it returns False; the result counts how many ticks actually ran. -/
def runProbes (s : AppState) : List Observation → AppState × Nat
  | [] => (s, 0)
  | o :: os =>
    let r1 := Controller.probe_mb_tiles_builder_thread s o.rendered o.nbtiles
      o.alive
    if r1.2 = some false then (r1.1, 1)
    else
      let r := runProbes r1.1 os
      (r.1, r.2 + 1)

/-! Concrete states and environments used as inputs for closed theorems. -/

/-- The application state at startup: default viewport (43.61, 3.88) at
zoom 8 (CustomMapView.DEFAULT_LATLON / DEFAULT_ZOOM), empty logs, default
online map source, empty file system. -/
def initState : AppState :=
  { fs := { paths := [] }
  , events := []
  , jobs := []
  , probes := []
  , viewport := { lat := 4361 / 100, lon := 388 / 100, zoom := 8 }
  , anims := []
  , map_source := MapSrc.defaultSource }

/-- Environment whose package metadata declares a minzoom but no center. -/
def envNoCenter : Env :=
  { mbtiles_directory := "/data/mbtiles"
  , mbtiles_paths := ["/data/mbtiles/World.mbtiles"]
  , metadataOf := fun _ => { center := none, minzoom := some 3 }
  , makedirsOK := true }

/-- Environment in which the mbtiles directory cannot be created. -/
def envNoDir : Env :=
  { mbtiles_directory := "/data/mbtiles"
  , mbtiles_paths := []
  , metadataOf := fun _ => { center := none, minzoom := none }
  , makedirsOK := false }

/-- Ordinary environment: directory creatable, one Paris package whose
metadata declares a center and minzoom. -/
def envDir : Env :=
  { mbtiles_directory := "/data/mbtiles"
  , mbtiles_paths := ["/data/mbtiles/Paris.mbtiles"]
  , metadataOf := fun _ => { center := some (2, 48, 11), minzoom := some 12 }
  , makedirsOK := true }

/-- State in which the mbtiles directory and the Paris package file exist. -/
def stateWithFile : AppState :=
  { initState with
      fs := { paths := ["/data/mbtiles", "/data/mbtiles/Paris.mbtiles"] } }

/-! Claim theorems. -/

/-- C1: the claim fails on the code at the failing input. Loading a package
whose metadata declares no center (here with minzoom 3) raises NameError on
the unbound local latitude at the animated_center_on call, before the zoom
assignment is reached: the call errors instead of completing, and the
viewport keeps its previous zoom 8 instead of being set to the declared
minimum zoom 3 as the claim requires. -/
theorem C1_load_mbtiles_no_center_raises :
    (CustomMapView.load_mbtiles envNoCenter initState "World.mbtiles").2
        = some (PyErr.nameError "latitude")
    ∧ (CustomMapView.load_mbtiles envNoCenter initState "World.mbtiles").1.viewport
        = initState.viewport
    ∧ initState.viewport.zoom ≠ (3 : Rat) := by
  refine ⟨rfl, rfl, by decide⟩

/-- C2 counterexample: with the mbtiles directory missing and uncreatable,
prepare_download_for_offline2 at a concrete input raises an uncaught
OSError and appends no UI event at all, refuting the claim that a Denied
outcome is surfaced to the caller for user-facing messaging. -/
theorem C2_counter_no_denied_message :
    (Controller.prepare_download_for_offline2 envNoDir initState
        "World.mbtiles" (-179, -89, 179, 89) (pyRange 0 6)).2
      = some PyErr.osError
    ∧ (Controller.prepare_download_for_offline2 envNoDir initState
        "World.mbtiles" (-179, -89, 179, 89) (pyRange 0 6)).1.events = [] :=
  ⟨rfl, rfl⟩

/-- C2 (amended): when the destination directory is missing and cannot be
created, prepare_download_for_offline2 stops with an uncaught OSError and
the state is returned unchanged: no download job is started, no probe is
scheduled, and no user-facing message is produced. -/
theorem C2_makedirs_failure_no_download (env : Env) (s : AppState)
    (filename : String) (bbox : BBox) (zoomlevels : List Int)
    (hdir : ¬ s.fs.pathExists env.mbtiles_directory)
    (hmk : env.makedirsOK = false) :
    Controller.prepare_download_for_offline2 env s filename bbox zoomlevels
      = (s, some PyErr.osError) := by
  unfold Controller.prepare_download_for_offline2
  simp [hdir, hmk]

/-- C2 witness: the amended statement at a concrete input. -/
theorem C2_makedirs_failure_no_download_witness :
    Controller.prepare_download_for_offline2 envNoDir initState
        "World.mbtiles" (-179, -89, 179, 89) (pyRange 0 6)
      = (initState, some PyErr.osError) :=
  C2_makedirs_failure_no_download envNoDir initState "World.mbtiles"
    (-179, -89, 179, 89) (pyRange 0 6) (by decide) rfl

/-- C3 counterexample: the city resolution used for downloads
(prepare_download_for_offline1) wraps its geocode call in no try/except: at
a concrete service failure it raises the GeocoderServiceError uncaught
(crashing the host process) and surfaces no user-facing message, refuting
the claim for that call site. -/
theorem C3_counter_download_geocode_uncaught :
    (Controller.prepare_download_for_offline1 envDir initState
        (GeoResult.serviceError "connection refused")).2
      = some (PyErr.geocoderServiceError "connection refused")
    ∧ (Controller.prepare_download_for_offline1 envDir initState
        (GeoResult.serviceError "connection refused")).1.events = [] :=
  ⟨rfl, rfl⟩

/-- C3 (amended): a geocoding service failure is surfaced as an error popup
by the free-text navigation search, which catches GeocoderServiceError and
neither retries nor crashes; the city resolution used for downloads instead
propagates the GeocoderServiceError uncaught to its caller. -/
theorem C3_service_error_handling (env : Env) (s : AppState) (msg : String) :
    CustomMapView.search s (GeoResult.serviceError msg)
        = ({ s with events := s.events ++ [UIEvent.popupMessage "Error" msg] },
           none)
    ∧ Controller.prepare_download_for_offline1 env s (GeoResult.serviceError msg)
        = (s, some (PyErr.geocoderServiceError msg)) :=
  ⟨rfl, rfl⟩

/-- C4: when the destination file already exists (in an existing package
directory) prepare_download_for_offline2 starts nothing: the returned state
keeps the file system, job list and probe list unchanged — so no background
fetch and no side effect on the destination file — and its only effects are
a ConfirmPopup whose confirmation action is exactly the forced download
(download_for_offline on the same filepath, bbox and zoom levels with
delete=True) plus a status message; no exception is raised. -/
theorem C4_existing_path_conflict (env : Env) (s : AppState)
    (filename : String) (bbox : BBox) (zoomlevels : List Int)
    (hdir : s.fs.pathExists env.mbtiles_directory)
    (hfile : s.fs.pathExists (pathJoin env.mbtiles_directory filename)) :
    Controller.prepare_download_for_offline2 env s filename bbox zoomlevels
      = ({ s with events := s.events ++
            [UIEvent.confirmPopup "File already exists"
              "File already exists.\nDo you want to override?"
              { filepath := pathJoin env.mbtiles_directory filename,
                bbox := bbox, zoomlevels := zoomlevels, delete := true },
             UIEvent.statusMessage ("File already exists: " ++ filename) 10] },
         none) := by
  unfold Controller.prepare_download_for_offline2
  simp [hdir, hfile]

/-- C4 witness: the conflict statement at a concrete input. -/
theorem C4_existing_path_conflict_witness :
    Controller.prepare_download_for_offline2 envDir stateWithFile
        "Paris.mbtiles" (2, 48, 3, 49) (pyRange 12 16)
      = ({ stateWithFile with events :=
            [UIEvent.confirmPopup "File already exists"
              "File already exists.\nDo you want to override?"
              { filepath := pathJoin "/data/mbtiles" "Paris.mbtiles",
                bbox := (2, 48, 3, 49), zoomlevels := pyRange 12 16,
                delete := true },
             UIEvent.statusMessage ("File already exists: " ++ "Paris.mbtiles")
               10] },
         none) :=
  C4_existing_path_conflict envDir stateWithFile "Paris.mbtiles"
    (2, 48, 3, 49) (pyRange 12 16) (by decide) (by decide)

/-- C5: download_for_offline with delete=True on a path where a file exists
deletes the file before the fetch is configured, then starts
unconditionally: a background build job for exactly these arguments is
appended and its progress probe is scheduled at the fixed 0.5 cadence; no
exception and no other state change occurs. -/
theorem C5_force_download_deletes_then_starts (s : AppState)
    (filepath : String) (bbox : BBox) (zoomlevels : List Int)
    (hfile : s.fs.pathExists filepath) :
    Controller.download_for_offline s filepath bbox zoomlevels true
      = ({ s with
            fs := s.fs.removePath filepath,
            jobs := s.jobs ++ [{ filepath := filepath, bbox := bbox,
                                 zoomlevels := zoomlevels }],
            probes := s.probes ++ [{ interval := (1 : Rat) / 2 }] },
         none) := by
  unfold Controller.download_for_offline
  simp [hfile]

/-- C5 witness: the forced download at a concrete state holding the file. -/
theorem C5_force_download_deletes_then_starts_witness :
    Controller.download_for_offline stateWithFile
        "/data/mbtiles/Paris.mbtiles" (2, 48, 3, 49) (pyRange 12 16) true
      = ({ stateWithFile with
            fs := stateWithFile.fs.removePath "/data/mbtiles/Paris.mbtiles",
            jobs := [{ filepath := "/data/mbtiles/Paris.mbtiles",
                       bbox := (2, 48, 3, 49),
                       zoomlevels := pyRange 12 16 }],
            probes := [{ interval := (1 : Rat) / 2 }] },
         none) :=
  C5_force_download_deletes_then_starts stateWithFile
    "/data/mbtiles/Paris.mbtiles" (2, 48, 3, 49) (pyRange 12 16) (by decide)

/-- C6: city resolution restricts acceptance to the raw classification tag
city: a found place with any other tag (such as address) produces only the
Only-cities popup — the returned state keeps the file system, job list and
probe list unchanged, so no download and no file-system side effect — and a
missing place likewise produces only the Cannot-find-location popup; hence
the resolution proceeds past validation only when the tag equals city. -/
theorem C6_resolve_city_tag_only (env : Env) (s : AppState) (p : Place)
    (hp : p.rawType ≠ "city") :
    Controller.prepare_download_for_offline1 env s (GeoResult.found p)
        = ({ s with events := s.events ++
              [UIEvent.popupMessage "Error" "Only cities are allowed."] },
           none)
    ∧ Controller.prepare_download_for_offline1 env s GeoResult.notFound
        = ({ s with events := s.events ++
              [UIEvent.popupMessage "Error" "Can't find location."] },
           none) := by
  constructor
  · unfold Controller.prepare_download_for_offline1
    simp [hp]
  · rfl

/-- C6 witness: a place classified as address is rejected, at a concrete
input. -/
theorem C6_resolve_city_tag_only_witness :
    Controller.prepare_download_for_offline1 envDir initState
        (GeoResult.found
          { latitude := 48, longitude := 2, address := "10 Rue X, Paris",
            rawType := "address",
            boundingbox := ["47.9", "48.1", "1.9", "2.1"] })
        = ({ initState with events :=
              [UIEvent.popupMessage "Error" "Only cities are allowed."] },
           none)
    ∧ Controller.prepare_download_for_offline1 envDir initState
        GeoResult.notFound
        = ({ initState with events :=
              [UIEvent.popupMessage "Error" "Can't find location."] },
           none) :=
  C6_resolve_city_tag_only envDir initState
    { latitude := 48, longitude := 2, address := "10 Rue X, Paris",
      rawType := "address", boundingbox := ["47.9", "48.1", "1.9", "2.1"] }
    (by decide)

/-- Helper: the optional last element of a list with one element appended. -/
lemma getLast?_append_singleton {α : Type} (l : List α) (a : α) :
    (l ++ [a]).getLast? = some a := by
  rw [List.getLast?_append_cons]
  rfl

/-- Helper: the probe on a live thread publishes rendered/nbtiles and
returns None. -/
lemma probe_alive_eq (s : AppState) (r n : Nat) :
    Controller.probe_mb_tiles_builder_thread s r n true
      = ({ s with events := s.events ++
            [UIEvent.statusMessage
              ("Downloading tiles " ++ toString r ++ "/" ++ toString n) 10] },
         none) := rfl

/-- Helper: the probe on a dead thread publishes rendered/nbtiles, then
nbtiles/nbtiles, and returns False. -/
lemma probe_dead_eq (s : AppState) (r n : Nat) :
    Controller.probe_mb_tiles_builder_thread s r n false
      = ({ s with events := (s.events ++
            [UIEvent.statusMessage
              ("Downloading tiles " ++ toString r ++ "/" ++ toString n) 10]) ++
            [UIEvent.statusMessage
              ("Downloading tiles " ++ toString n ++ "/" ++ toString n) 10] },
         some false) := rfl

/-- C7: animated_center_on starts exactly the composed animation built from
the zoom captured before the transition; that animation runs the zoom-out
to the fixed intermediate level 5 in parallel with the pan to the new
coordinate, each of duration 1, then in sequence the zoom back to the
captured zoom of duration 1, for a total duration 2: midway through stage
one both zoom and position are interpolating simultaneously, at time 1 the
viewport is at the new coordinate at zoom 5, and at time 2 it is at the new
coordinate with exactly the zoom that was current before the transition. -/
theorem C7_animated_center_on_stages (s : AppState) (latitude longitude : Rat) :
    CustomMapView.animated_center_on s latitude longitude
      = { s with anims := s.anims ++
            [CustomMapView.center_anim s.viewport.zoom latitude longitude] }
    ∧ CustomMapView.center_anim s.viewport.zoom latitude longitude
      = Anim.seq
          (Anim.par (Anim.zoomTo 5 1) (Anim.panTo latitude longitude 1))
          (Anim.zoomTo s.viewport.zoom 1)
    ∧ (CustomMapView.center_anim s.viewport.zoom latitude longitude).duration
        = 2
    ∧ (Anim.eval (CustomMapView.center_anim s.viewport.zoom latitude longitude)
        s.viewport (1 / 2)).zoom = lerp s.viewport.zoom 5 (1 / 2) 1
    ∧ (Anim.eval (CustomMapView.center_anim s.viewport.zoom latitude longitude)
        s.viewport (1 / 2)).lat = lerp s.viewport.lat latitude (1 / 2) 1
    ∧ (Anim.eval (CustomMapView.center_anim s.viewport.zoom latitude longitude)
        s.viewport (1 / 2)).lon = lerp s.viewport.lon longitude (1 / 2) 1
    ∧ Anim.eval (CustomMapView.center_anim s.viewport.zoom latitude longitude)
        s.viewport 1 = { lat := latitude, lon := longitude, zoom := 5 }
    ∧ Anim.eval (CustomMapView.center_anim s.viewport.zoom latitude longitude)
        s.viewport 2
        = { lat := latitude, lon := longitude, zoom := s.viewport.zoom } := by
  refine ⟨rfl, rfl, ?_, ?_, ?_, ?_, ?_, ?_⟩ <;>
    simp [CustomMapView.center_anim, Anim.eval, Anim.duration, lerp] <;>
    norm_num

/-- C8: on four numeric strings in the geopy order (min_lat, max_lat,
min_lon, max_lon), geopy_bbox_to_bbox takes no fallible branch and returns
exactly the reordered numeric tuple (min_lon, min_lat, max_lon, max_lat). -/
theorem C8_geopy_bbox_reorder (a1 a2 a3 a4 : String)
    (min_lat max_lat min_lon max_lon : Rat)
    (h1 : pyFloat a1 = some min_lat) (h2 : pyFloat a2 = some max_lat)
    (h3 : pyFloat a3 = some min_lon) (h4 : pyFloat a4 = some max_lon) :
    Controller.geopy_bbox_to_bbox [a1, a2, a3, a4]
      = some (min_lon, min_lat, max_lon, max_lat) := by
  have hm : Controller.pyFloatList [a1, a2, a3, a4]
      = some [min_lat, max_lat, min_lon, max_lon] := by
    simp [Controller.pyFloatList, h1, h2, h3, h4]
  unfold Controller.geopy_bbox_to_bbox
  rw [hm]

/-- C8 witness: the reorder at four concrete numeric strings. -/
theorem C8_geopy_bbox_reorder_witness :
    Controller.geopy_bbox_to_bbox ["-89", "89", "-179", "179"]
      = some (-179, -89, 179, 89) :=
  C8_geopy_bbox_reorder "-89" "89" "-179" "179"
    (-89) 89 (-179) 179
    (by decide) (by decide) (by decide) (by decide)

/-- C9: over any observation trace whose first dead observation follows
only live ones, the scheduled probe runs exactly once per live observation
plus once for the dead one — observations after the dead one are never
polled, because the probe returns False there and is unscheduled — and the
last published status message renders nbtiles/nbtiles of the dead
observation, whatever its rendered counter says. -/
theorem C9_probe_stops_and_reports_total (s : AppState)
    (pre : List Observation) (o : Observation) (rest : List Observation)
    (hpre : ∀ x ∈ pre, x.alive = true) (ho : o.alive = false) :
    (runProbes s (pre ++ o :: rest)).2 = pre.length + 1
    ∧ (runProbes s (pre ++ o :: rest)).1.events.getLast?
        = some (UIEvent.statusMessage
            ("Downloading tiles " ++ toString o.nbtiles ++ "/"
              ++ toString o.nbtiles) 10) := by
  induction pre generalizing s with
  | nil =>
    simp only [List.nil_append, runProbes, ho, probe_dead_eq]
    exact ⟨rfl, getLast?_append_singleton _ _⟩
  | cons x pre ih =>
    have hx : x.alive = true := hpre x (List.mem_cons_self x pre)
    have hpre2 : ∀ y ∈ pre, y.alive = true :=
      fun y hy => hpre y (List.mem_cons_of_mem x hy)
    have step := ih
      ({ s with events := s.events ++
          [UIEvent.statusMessage
            ("Downloading tiles " ++ toString x.rendered ++ "/"
              ++ toString x.nbtiles) 10] }) hpre2
    simp only [List.cons_append, runProbes, hx, probe_alive_eq,
      List.length_cons, List.append_eq]
    rw [if_neg (fun h => Option.noConfusion h)]
    exact ⟨by rw [step.1], step.2⟩

/-- C9 witness: a three-observation trace whose second observation is dead
with rendered 7 strictly below total 10: exactly two polls run and the
final message renders 10/10. -/
theorem C9_probe_stops_and_reports_total_witness :
    (runProbes initState
        ([{ rendered := 3, nbtiles := 10, alive := true }] ++
          { rendered := 7, nbtiles := 10, alive := false } ::
            [{ rendered := 7, nbtiles := 10, alive := false }])).2 = 1 + 1
    ∧ (runProbes initState
        ([{ rendered := 3, nbtiles := 10, alive := true }] ++
          { rendered := 7, nbtiles := 10, alive := false } ::
            [{ rendered := 7, nbtiles := 10, alive := false }])).1.events.getLast?
        = some (UIEvent.statusMessage
            ("Downloading tiles " ++ toString (10 : Nat) ++ "/"
              ++ toString (10 : Nat)) 10) :=
  C9_probe_stops_and_reports_total initState
    [{ rendered := 3, nbtiles := 10, alive := true }]
    { rendered := 7, nbtiles := 10, alive := false }
    [{ rendered := 7, nbtiles := 10, alive := false }]
    (by decide) rfl

/-- C10: for every requested package name, load_mbtiles replaces the map
source by the composite source built over every package path of the glob
result, in its enumeration order — never by a source built from the
requested package alone; the requested name does not enter the map source
at all (it is used only for the center/zoom metadata). -/
theorem C10_composite_over_all_packages (env : Env) (s : AppState)
    (mbtiles : String) :
    (CustomMapView.load_mbtiles env s mbtiles).1.map_source
      = MapSrc.composite env.mbtiles_paths := by
  rcases hc : (env.metadataOf (pathJoin env.mbtiles_directory mbtiles)).center
    with _ | ⟨lon, lat, z⟩ <;>
    simp [CustomMapView.load_mbtiles, hc, CustomMapView.animated_center_on]

end GuyPS
